import Mathlib

/-!
Verification of the knowledge-resolution and teaching subsystem of the
SormGPT chat bot (src/zz.js): the built-in knowledge table, the resolver
(`getAnswer`), the teacher (`teachQuestion` and the `!teach` branch of
`handleMessage`), the interaction log (`saveLog`), and the top-level message
dispatch (the top-level message listener plus the `/help` and `/stats` routes).

The SQLite `memory` table has `question` as PRIMARY KEY, so it is modelled as
a map from question text to a row of answer text and usage count.  The JS
expression `DEFAULT_KNOWLEDGE[q]` is an ordinary property access on an object
literal, so it sees the own entries of the table first and then the
properties inherited from `Object.prototype`; its result is then tested for
truthiness.  Both are modelled explicitly.
-/

set_option autoImplicit false

namespace Xm

/-! ### JavaScript string primitives

The handful of string operations the bot uses — `toLowerCase`, `trim`,
`split`, `substring`, `startsWith` — are modelled over the character list of
a Lean `String`, mirroring the ECMAScript behavior on the ASCII texts the
bot manipulates. -/

/-- Model of `s.toLowerCase()` (ASCII case folding, which is all the keys
of the bot use). -/
def jsToLower (s : String) : String :=
  String.mk (s.data.map Char.toLower)

/-- Model of `s.trim()`: remove leading and trailing whitespace. -/
def jsTrim (s : String) : String :=
  String.mk (((s.data.dropWhile Char.isWhitespace).reverse.dropWhile
    Char.isWhitespace).reverse)

/-- One step of `s.split(sep)` over the character list: split into the
groups between occurrences of `sep`.  As in ECMAScript, the empty string
yields the single group `[""]`, and a trailing separator yields a trailing
empty group. -/
def splitOnChar (sep : Char) : List Char → List (List Char)
  | [] => [[]]
  | c :: rest =>
      match splitOnChar sep rest with
      | [] => [[]]
      | g :: gs => if c = sep then [] :: g :: gs else (c :: g) :: gs

/-- Model of `s.split(sep)` for a one-character separator. -/
def jsSplit (sep : Char) (s : String) : List String :=
  (splitOnChar sep s.data).map String.mk

/-- Model of `s.substring(n)`: drop the first `n` characters. -/
def jsDrop (n : Nat) (s : String) : String :=
  String.mk (s.data.drop n)

/-- Model of `s.startsWith(p)`. -/
def jsStartsWith (p s : String) : Bool :=
  p.data.isPrefixOf s.data

/-- JavaScript runtime values that can flow out of `DEFAULT_KNOWLEDGE[q]`:
the string answers of the own entries, the method values inherited from
`Object.prototype` (tagged with their name), and plain objects such as the
value of `__proto__`. -/
inductive JSValue where
  | str : String → JSValue
  | fn : String → JSValue
  | obj : String → JSValue
  deriving DecidableEq

/-- JavaScript truthiness for the values above: a string is truthy iff it is
nonempty; functions and objects are always truthy. -/
def JSValue.truthy : JSValue → Bool
  | .str s => s ≠ ""
  | .fn _ => true
  | .obj _ => true

/-- Whether a `JSValue` is a string. -/
def JSValue.isString : JSValue → Bool
  | .str _ => true
  | .fn _ => false
  | .obj _ => false

/-- The own enumerable entries of `DEFAULT_KNOWLEDGE` (src/zz.js lines
64-70), in source order. -/
def DEFAULT_KNOWLEDGE_entries : List (String × String) :=
  [ ("who are you", "I am SormGPT, your helpful assistant."),
    ("who is your developer", "@l9shx is my developer."),
    ("hello", "Hello! How can I help you today?"),
    ("hi", "Hi there! What can I do for you?"),
    ("help", "You can ask me anything or teach me new things using:\n\n!teach question | answer") ]

/-- Properties inherited from `Object.prototype`, visible through the
property access `DEFAULT_KNOWLEDGE[q]` although they are not own entries of
the object literal.  All of them are functions except `__proto__`, which is
the `Object.prototype` object itself; every one of them is truthy. -/
def objectPrototypeProps : List (String × JSValue) :=
  [ ("constructor", JSValue.fn "Object"),
    ("hasOwnProperty", JSValue.fn "hasOwnProperty"),
    ("isPrototypeOf", JSValue.fn "isPrototypeOf"),
    ("propertyIsEnumerable", JSValue.fn "propertyIsEnumerable"),
    ("toLocaleString", JSValue.fn "toLocaleString"),
    ("toString", JSValue.fn "toString"),
    ("valueOf", JSValue.fn "valueOf"),
    ("__defineGetter__", JSValue.fn "__defineGetter__"),
    ("__defineSetter__", JSValue.fn "__defineSetter__"),
    ("__lookupGetter__", JSValue.fn "__lookupGetter__"),
    ("__lookupSetter__", JSValue.fn "__lookupSetter__"),
    ("__proto__", JSValue.obj "Object.prototype") ]

/-- The JavaScript property access `DEFAULT_KNOWLEDGE[q]`: the own property
if present, otherwise the inherited `Object.prototype` property, otherwise
`undefined` (modelled as `none`). -/
def knowledgeAccess (q : String) : Option JSValue :=
  match DEFAULT_KNOWLEDGE_entries.lookup q with
  | some a => some (JSValue.str a)
  | none => objectPrototypeProps.lookup q

/-- The truthiness test `if (DEFAULT_KNOWLEDGE[q])` used at src/zz.js lines
77 and 219. -/
def isBuiltinTruthy (q : String) : Bool :=
  match knowledgeAccess q with
  | some v => v.truthy
  | none => false

/-- Model of `q.toLowerCase().trim()`, the normalization applied at src/zz.js lines
74 and 125. -/
def jsNormalize (s : String) : String := jsTrim (jsToLower s)

/-- One row of the `memory` table: `answer` and `usage_count`
(`created_at` plays no part in any claim). -/
structure MemRow where
  answer : String
  usage_count : Nat
  deriving DecidableEq

/-- The `memory` table.  `question` is its PRIMARY KEY, so the table is a
map from question text to the rest of the row. -/
abbrev MemStore := String → Option MemRow

/-- The empty `memory` table. -/
def emptyMem : MemStore := fun _ => none

/-- Model of `getAnswer` (src/zz.js lines 73-108).  `incrOk` models whether the
best-effort `UPDATE memory SET usage_count = usage_count + 1` succeeds; on
failure the error is only logged.  The result is the value passed to the
callback (`none` for the `null` miss case) together with the `memory` table
after the call. -/
def getAnswer (st : MemStore) (incrOk : Bool) (question : String) :
    Option JSValue × MemStore :=
  let q := jsNormalize question
  if isBuiltinTruthy q then (knowledgeAccess q, st)
  else
    match st q with
    | some row =>
        (some (JSValue.str row.answer),
         if incrOk then
           fun k => if k = q then some ⟨row.answer, row.usage_count + 1⟩ else st k
         else st)
    | none => (none, st)

/-- Model of `teachQuestion` (src/zz.js lines 122-134).  The SQL is
`INSERT OR REPLACE INTO memory (question, answer) VALUES (?, ?)`: on a
primary-key conflict SQLite deletes the existing row and inserts a fresh
one, so the unspecified columns take their column defaults — in particular
`usage_count` becomes its default `0` and is not carried over. -/
def teachQuestion (st : MemStore) (question answer : String) : MemStore :=
  fun k => if k = jsNormalize question then some ⟨jsTrim answer, 0⟩ else st k

/-- The list `message.substring(6).trim().split("|").map(s => s.trim())`
built at src/zz.js lines 212-213. -/
def teachPieces (message : String) : List String :=
  (jsSplit '|' (jsTrim (jsDrop 6 message))).map jsTrim

/-- The destructured `question` of src/zz.js line 213, with JavaScript
`undefined` (no piece at index 0) collapsed onto the empty string, which the
`!question` falsiness test at line 215 treats identically. -/
def questionPart (message : String) : String :=
  ((teachPieces message).get? 0).getD ""

/-- The destructured `answer` of src/zz.js line 213, with JavaScript
`undefined` (no second piece, i.e. no `|` in the input) collapsed onto the
empty string, which the `!answer` falsiness test at line 215 treats
identically. -/
def answerPart (message : String) : String :=
  ((teachPieces message).get? 1).getD ""

/-- Outcome of the `!teach` branch reported back to the chat. -/
inductive TeachResult where
  | invalidFormat
  | builtinConflict
  | learned : String → String → TeachResult
  deriving DecidableEq

/-- The `!teach` branch of `handleMessage` (src/zz.js lines 210-229),
applied to the trimmed inbound `message` (which starts with `!teach`).
Returns the reported outcome and the `memory` table afterwards; the
`learned` outcome carries the exact `question` and `answer` strings
interpolated into the success message at line 225. -/
def teach (st : MemStore) (message : String) : TeachResult × MemStore :=
  let question := questionPart message
  let answer := answerPart message
  if question = "" || answer = "" then (TeachResult.invalidFormat, st)
  else if isBuiltinTruthy (jsToLower question) then (TeachResult.builtinConflict, st)
  else (TeachResult.learned question answer, teachQuestion st question answer)

/-- One resolution of `q` with the usage-count `UPDATE` persisted. -/
def resolveStep (q : String) (st : MemStore) : MemStore :=
  (getAnswer st true q).2

/-- The memory table after `n` successive resolutions of `q`. -/
def resolveN (q : String) : Nat → MemStore → MemStore
  | 0, st => st
  | n + 1, st => resolveN q n (resolveStep q st)

/-- One row of the `logs` table as the core writes it via `saveLog`
(src/zz.js lines 110-120); `id` and `created_at` are supplied by the
database. -/
structure LogEntry where
  user_id : Nat
  username : String
  message : String
  deriving DecidableEq

/-- The mutable state the message handlers touch: the `memory` table and
the append-only `logs` table. -/
structure BotState where
  mem : MemStore
  log : List LogEntry

/-- The single outbound chat response per inbound message. -/
inductive Response where
  | invalidFormat
  | builtinConflict
  | learnedMsg : String → String → Response
  | answerText : JSValue → Response
  | unknown
  deriving DecidableEq

/-- Mapping of the teach branch's outcome onto the outbound response
(src/zz.js lines 216, 220 and 225). -/
def teachResponse : TeachResult → Response
  | TeachResult.invalidFormat => Response.invalidFormat
  | TeachResult.builtinConflict => Response.builtinConflict
  | TeachResult.learned q a => Response.learnedMsg q a

/-- Mapping of the `getAnswer` callback value onto the outbound response
(src/zz.js lines 243-252): a truthy answer is echoed, otherwise the
"I don't know" text is sent. -/
def answerResponse : Option JSValue → Response
  | some v => if v.truthy then Response.answerText v else Response.unknown
  | none => Response.unknown

/-- Model of `handleMessage` (src/zz.js lines 202-254) for a message whose text is
present: the text is trimmed, `saveLog` records the interaction before the
message is classified, and then either the teach branch or the resolver
runs (the resolver with its usage-count update persisting). -/
def handleMessage (st : BotState) (userId : Nat) (username : Option String)
    (text : String) : BotState × Response :=
  let message := jsTrim text
  let log1 := st.log ++ [⟨userId, username.getD "Unknown", message⟩]
  if jsStartsWith "!teach" message then
    let tr := teach st.mem message
    (⟨tr.2, log1⟩, teachResponse tr.1)
  else
    let ga := getAnswer st.mem true message
    (⟨ga.2, log1⟩, answerResponse ga.1)

/-- The top-level message listener (src/zz.js lines 259-263) together
with the `onText` routes for `/help` and `/stats` (lines 257-258, handlers
at 141-199), which only read and send text and never write the log or the
memory table: state changes only when the text is present, nonempty and
does not start with `/`, in which case `handleMessage` runs. -/
def dispatch (st : BotState) (userId : Nat) (username : Option String)
    (text : Option String) : BotState :=
  match text with
  | none => st
  | some t =>
      if t = "" then st
      else if jsStartsWith "/" t then st
      else (handleMessage st userId username t).1

/-- A `memory` table holding the single entry `foo ↦ (Old, 5)`. -/
def memC1 : MemStore := fun k => if k = "foo" then some ⟨"Old", 5⟩ else none

/-- A `memory` table holding the single entry `hello ↦ (Shadow, 7)`,
shadowed by the built-in key `hello`. -/
def memHello : MemStore :=
  fun k => if k = "hello" then some ⟨"Shadow", 7⟩ else none

/-- A `memory` table holding the single entry `foo ↦ (Bar, 2)`. -/
def memC8 : MemStore := fun k => if k = "foo" then some ⟨"Bar", 2⟩ else none

/-- A bot state with empty memory table and empty interaction log. -/
def botEmpty : BotState := ⟨emptyMem, []⟩

/-! ### Helper lemmas -/

theorem teach_eq_invalid (st : MemStore) (m : String)
    (h : questionPart m = "" ∨ answerPart m = "") :
    teach st m = (TeachResult.invalidFormat, st) := by
  rcases h with h | h <;> simp [teach, h]

theorem teach_eq_conflict (st : MemStore) (m : String)
    (hq : questionPart m ≠ "") (ha : answerPart m ≠ "")
    (hb : isBuiltinTruthy (jsToLower (questionPart m)) = true) :
    teach st m = (TeachResult.builtinConflict, st) := by
  simp [teach, hq, ha, hb]

theorem teach_eq_learned (st : MemStore) (m : String)
    (hq : questionPart m ≠ "") (ha : answerPart m ≠ "")
    (hb : isBuiltinTruthy (jsToLower (questionPart m)) = false) :
    teach st m =
      (TeachResult.learned (questionPart m) (answerPart m),
       teachQuestion st (questionPart m) (answerPart m)) := by
  simp [teach, hq, ha, hb]

theorem getAnswer_hit (st : MemStore) (incrOk : Bool) (q : String) (row : MemRow)
    (hb : isBuiltinTruthy (jsNormalize q) = false)
    (hrow : st (jsNormalize q) = some row) :
    getAnswer st incrOk q =
      (some (JSValue.str row.answer),
       if incrOk then
         fun k =>
           if k = jsNormalize q then some ⟨row.answer, row.usage_count + 1⟩
           else st k
       else st) := by
  simp [getAnswer, hb, hrow]

theorem resolveStep_count (q : String) (st : MemStore) (b : String) (c : Nat)
    (hb : isBuiltinTruthy (jsNormalize q) = false)
    (hrow : st (jsNormalize q) = some ⟨b, c⟩) :
    resolveStep q st (jsNormalize q) = some ⟨b, c + 1⟩ := by
  simp [resolveStep, getAnswer, hb, hrow]

theorem resolveN_count (q : String) (n : Nat) :
    ∀ (st : MemStore) (b : String) (c : Nat),
      isBuiltinTruthy (jsNormalize q) = false →
      st (jsNormalize q) = some ⟨b, c⟩ →
      resolveN q n st (jsNormalize q) = some ⟨b, c + n⟩ := by
  induction n with
  | zero =>
      intro st b c _ hrow
      simpa using hrow
  | succ n ih =>
      intro st b c hb hrow
      have h1 := resolveStep_count q st b c hb hrow
      have h2 := ih (resolveStep q st) b (c + 1) hb h1
      simp only [resolveN]
      rw [h2]
      have h3 : c + 1 + n = c + (n + 1) := by omega
      rw [h3]

/-! ### Theorems about the claims -/

/-- C1: the claim fails.  On a store where the entry for `foo` has
`usageCount = 5`, re-teaching `foo` leaves the counter at `0`, not `5`:
`INSERT OR REPLACE` deletes the old row and inserts a fresh one whose
`usage_count` takes the column default `0`. -/
theorem C1_counterexample :
    memC1 "foo" = some ⟨"Old", 5⟩ ∧
    teachQuestion memC1 "foo" "New" "foo" = some ⟨"New", 0⟩ ∧
    teachQuestion memC1 "foo" "New" "foo" ≠ some ⟨"New", 5⟩ := by
  refine ⟨?_, ?_, ?_⟩ <;> decide

/-- C1 (amended): a subsequent teach of an already-present normalized
question replaces the answer and resets that entry's `usageCount` to `0`
(the whole row is replaced, unspecified columns reverting to their
defaults); entries under every other key are untouched. -/
theorem C1_reteach_resets_usage (st : MemStore) (q a : String) (row : MemRow)
    (h : st (jsNormalize q) = some row) (k : String) (hk : k ≠ jsNormalize q) :
    teachQuestion st q a (jsNormalize q) = some ⟨jsTrim a, 0⟩ ∧
    teachQuestion st q a k = st k := by
  constructor
  · simp [teachQuestion]
  · simp [teachQuestion, hk]

/-- Closed instance of `C1_reteach_resets_usage` at the store `memC1`. -/
theorem C1_reteach_resets_usage_witness :
    teachQuestion memC1 "foo" "New" (jsNormalize "foo") = some ⟨jsTrim "New", 0⟩ ∧
    teachQuestion memC1 "foo" "New" "bar" = memC1 "bar" :=
  C1_reteach_resets_usage memC1 "foo" "New" ⟨"Old", 5⟩ (by decide) "bar" (by decide)

/-- C2: the claim fails.  Teaching `!teach a | b | c` stores the answer
`b` — the text between the first and second separator — and silently
discards ` c`; the claimed behavior would store the re-joined remainder
`b | c`. -/
theorem C2_counterexample :
    (teach emptyMem "!teach a | b | c").1 = TeachResult.learned "a" "b" ∧
    (teach emptyMem "!teach a | b | c").2 "a" = some ⟨"b", 0⟩ ∧
    "b" ≠ "b | c" := by
  refine ⟨?_, ?_, ?_⟩ <;> decide

/-- C2 (amended): the teach input is split on every `|`; the question is
the first segment trimmed and the stored answer is the second segment
trimmed, while any segments after the second are discarded (they do not
influence the result). -/
theorem C2_first_two_segments (st : MemStore) (m q a : String)
    (rest : List String) (hp : teachPieces m = q :: a :: rest)
    (hq : q ≠ "") (ha : a ≠ "")
    (hb : isBuiltinTruthy (jsToLower q) = false) :
    teach st m = (TeachResult.learned q a, teachQuestion st q a) := by
  simp [teach, questionPart, answerPart, hp, hq, ha, hb]

/-- Closed instance of `C2_first_two_segments` on `!teach a | b | c`. -/
theorem C2_first_two_segments_witness :
    teach emptyMem "!teach a | b | c" =
      (TeachResult.learned "a" "b", teachQuestion emptyMem "a" "b") :=
  C2_first_two_segments emptyMem "!teach a | b | c" "a" "b" ["c"]
    (by decide) (by decide) (by decide) (by decide)

/-- C5: a teach input whose question part or answer part is empty after
trimming — in particular any input with no `|` separator at all, where the
destructured answer is JavaScript `undefined` — is rejected as invalid
format and nothing is written to the memory table. -/
theorem C5_invalid_format (st : MemStore) (m : String)
    (h : questionPart m = "" ∨ answerPart m = "") :
    teach st m = (TeachResult.invalidFormat, st) := by
  rcases h with h | h <;> simp [teach, h]

/-- Closed instance of `C5_invalid_format` on a separator-free input. -/
theorem C5_invalid_format_witness :
    teach emptyMem "!teach onlyquestion" = (TeachResult.invalidFormat, emptyMem) :=
  C5_invalid_format emptyMem "!teach onlyquestion" (Or.inr (by decide))

/-- C3: when the normalized input is one of the built-in table's own keys,
`getAnswer` returns the built-in answer immediately and the memory table is
returned untouched — in particular the `usageCount` of a store entry under
the same key is unchanged. -/
theorem C3_builtin_precedence (st : MemStore) (incrOk : Bool) (q ans : String)
    (h : (jsNormalize q, ans) ∈ DEFAULT_KNOWLEDGE_entries) :
    getAnswer st incrOk q = (some (JSValue.str ans), st) := by
  simp only [DEFAULT_KNOWLEDGE_entries, List.mem_cons, List.not_mem_nil,
    or_false, Prod.mk.injEq] at h
  rcases h with ⟨h1, rfl⟩ | ⟨h1, rfl⟩ | ⟨h1, rfl⟩ | ⟨h1, rfl⟩ | ⟨h1, rfl⟩ <;>
  · simp only [getAnswer]
    rw [h1]
    rfl

/-- Closed instance of `C3_builtin_precedence`: resolving ` HELLO ` over a
store that also holds an entry for `hello` with `usageCount = 7` returns
the built-in greeting and leaves the store (hence that counter) as it
was. -/
theorem C3_builtin_precedence_witness :
    getAnswer memHello true " HELLO " =
      (some (JSValue.str "Hello! How can I help you today?"), memHello) :=
  C3_builtin_precedence memHello true " HELLO "
    "Hello! How can I help you today?" (by decide)

/-- C4: teaching `!teach Foo | Bar` reports success, and afterwards
resolving any text that normalizes to `foo` (such as `foo`, `FOO`,
`  Foo  `) returns `Bar`, whether or not the usage-count update
persists. -/
theorem C4_teach_then_resolve (st : MemStore) (incrOk : Bool) (r : String)
    (hr : jsNormalize r = "foo") :
    (teach st "!teach Foo | Bar").1 = TeachResult.learned "Foo" "Bar" ∧
    (getAnswer (teach st "!teach Foo | Bar").2 incrOk r).1 =
      some (JSValue.str "Bar") := by
  constructor
  · rfl
  · simp only [getAnswer]
    rw [hr]
    rfl

/-- Closed instance of `C4_teach_then_resolve` resolving `FOO`. -/
theorem C4_teach_then_resolve_witness :
    (teach emptyMem "!teach Foo | Bar").1 = TeachResult.learned "Foo" "Bar" ∧
    (getAnswer (teach emptyMem "!teach Foo | Bar").2 true "FOO").1 =
      some (JSValue.str "Bar") :=
  C4_teach_then_resolve emptyMem true "FOO" (by decide)

/-- C6: the claim fails.  The input `!teach hello` has a normalized
question equal to the built-in key `hello`, yet it is rejected as invalid
format — the emptiness check runs before the built-in check — not as a
built-in conflict. -/
theorem C6_counterexample :
    jsNormalize (questionPart "!teach hello") = "hello" ∧
    (DEFAULT_KNOWLEDGE_entries.lookup "hello").isSome = true ∧
    (teach emptyMem "!teach hello").1 = TeachResult.invalidFormat ∧
    (teach emptyMem "!teach hello").1 ≠ TeachResult.builtinConflict := by
  refine ⟨?_, ?_, ?_, ?_⟩ <;> decide

/-- C6 (amended): a teach input whose normalized question equals a built-in
table key *and whose answer part is nonempty after trimming* is rejected as
a built-in conflict, and the memory table is returned exactly as it was
(the built-in table is a process constant and is never written). -/
theorem C6_builtin_conflict (st : MemStore) (m ans : String)
    (ha : answerPart m ≠ "")
    (hk : (jsToLower (questionPart m), ans) ∈ DEFAULT_KNOWLEDGE_entries) :
    teach st m = (TeachResult.builtinConflict, st) := by
  simp only [DEFAULT_KNOWLEDGE_entries, List.mem_cons, List.not_mem_nil,
    or_false, Prod.mk.injEq] at hk
  rcases hk with ⟨h1, rfl⟩ | ⟨h1, rfl⟩ | ⟨h1, rfl⟩ | ⟨h1, rfl⟩ | ⟨h1, rfl⟩ <;>
  · have hq : questionPart m ≠ "" := fun h0 => by
      rw [h0] at h1
      exact absurd h1 (by decide)
    have hb : isBuiltinTruthy (jsToLower (questionPart m)) = true := by
      rw [h1]
      decide
    simp [teach, hq, ha, hb]

/-- Closed instance of `C6_builtin_conflict` on `!teach HELLO | x`. -/
theorem C6_builtin_conflict_witness :
    teach memHello "!teach HELLO | x" = (TeachResult.builtinConflict, memHello) :=
  C6_builtin_conflict memHello "!teach HELLO | x"
    "Hello! How can I help you today?" (by decide) (by decide)

/-- C7: the claim fails.  `!teach Foo | Bar` reports
a learned result carrying `Foo` and `Bar` — the trimmed but not lower-cased question — while
the key stored in the memory table is the normalized `foo`; the reported
question component is therefore not the stored key. -/
theorem C7_counterexample :
    (teach emptyMem "!teach Foo | Bar").1 = TeachResult.learned "Foo" "Bar" ∧
    (teach emptyMem "!teach Foo | Bar").2 "foo" = some ⟨"Bar", 0⟩ ∧
    (teach emptyMem "!teach Foo | Bar").2 "Foo" = none ∧
    "Foo" ≠ "foo" := by
  refine ⟨?_, ?_, ?_, ?_⟩ <;> decide

/-- C7 (amended): on success the reported result is
`Learned(trimmedQuestion, trimmedAnswer)`: the question component is the
trimmed — but not lower-cased — question piece, while the key stored in the
memory table is its lower-cased normalization. -/
theorem C7_learned_reports_trimmed (st : MemStore) (m q a : String)
    (h : (teach st m).1 = TeachResult.learned q a) :
    q = questionPart m ∧ a = answerPart m ∧
    (teach st m).2 (jsNormalize (questionPart m)) =
      some ⟨jsTrim (answerPart m), 0⟩ := by
  by_cases h1 : questionPart m = "" ∨ answerPart m = ""
  · rw [teach_eq_invalid st m h1] at h
    exact absurd h (by simp)
  · push_neg at h1
    obtain ⟨hq, ha⟩ := h1
    by_cases hb : isBuiltinTruthy (jsToLower (questionPart m)) = true
    · rw [teach_eq_conflict st m hq ha hb] at h
      exact absurd h (by simp)
    · have hb0 : isBuiltinTruthy (jsToLower (questionPart m)) = false := by
        simpa using hb
      rw [teach_eq_learned st m hq ha hb0] at h ⊢
      simp only [TeachResult.learned.injEq] at h
      obtain ⟨rfl, rfl⟩ := h
      refine ⟨rfl, rfl, ?_⟩
      simp [teachQuestion]

/-- Closed instance of `C7_learned_reports_trimmed` on `!teach Foo | Bar`. -/
theorem C7_learned_reports_trimmed_witness :
    "Foo" = questionPart "!teach Foo | Bar" ∧
    "Bar" = answerPart "!teach Foo | Bar" ∧
    (teach emptyMem "!teach Foo | Bar").2
        (jsNormalize (questionPart "!teach Foo | Bar")) =
      some ⟨jsTrim (answerPart "!teach Foo | Bar"), 0⟩ :=
  C7_learned_reports_trimmed emptyMem "!teach Foo | Bar" "Foo" "Bar" (by decide)

/-- C8: resolving a non-built-in question found in the memory table returns
the stored answer and increments exactly that entry's usage count by one;
when the best-effort update fails, the same answer is still returned and
the table is completely unchanged (the failure is not surfaced); and after
a teach, `n` successive resolutions leave the counter at exactly `n`. -/
theorem C8_usage_counting (st : MemStore) (q b aa k : String) (c n : Nat)
    (hb : isBuiltinTruthy (jsNormalize q) = false)
    (hrow : st (jsNormalize q) = some ⟨b, c⟩)
    (hk : k ≠ jsNormalize q) :
    (getAnswer st true q).1 = some (JSValue.str b) ∧
    (getAnswer st true q).2 (jsNormalize q) = some ⟨b, c + 1⟩ ∧
    (getAnswer st true q).2 k = st k ∧
    (getAnswer st false q).1 = some (JSValue.str b) ∧
    (getAnswer st false q).2 = st ∧
    resolveN q n (teachQuestion st q aa) (jsNormalize q) =
      some ⟨jsTrim aa, n⟩ := by
  have ht := getAnswer_hit st true q ⟨b, c⟩ hb hrow
  have hf := getAnswer_hit st false q ⟨b, c⟩ hb hrow
  refine ⟨?_, ?_, ?_, ?_, ?_, ?_⟩
  · rw [ht]
  · rw [ht]
    simp
  · rw [ht]
    simp [hk]
  · rw [hf]
  · rw [hf]
    simp
  · have h0 : teachQuestion st q aa (jsNormalize q) = some ⟨jsTrim aa, 0⟩ := by
      simp [teachQuestion]
    have := resolveN_count q n (teachQuestion st q aa) (jsTrim aa) 0 hb h0
    simpa using this

/-- Closed instance of `C8_usage_counting` with entry `foo ↦ (Bar, 2)` and
three successive resolutions after a re-teach. -/
theorem C8_usage_counting_witness :
    (getAnswer memC8 true "foo").1 = some (JSValue.str "Bar") ∧
    (getAnswer memC8 true "foo").2 (jsNormalize "foo") = some ⟨"Bar", 2 + 1⟩ ∧
    (getAnswer memC8 true "foo").2 "other" = memC8 "other" ∧
    (getAnswer memC8 false "foo").1 = some (JSValue.str "Bar") ∧
    (getAnswer memC8 false "foo").2 = memC8 ∧
    resolveN "foo" 3 (teachQuestion memC8 "foo" "New") (jsNormalize "foo") =
      some ⟨jsTrim "New", 3⟩ :=
  C8_usage_counting memC8 "foo" "Bar" "New" "other" 2 3
    (by decide) (by decide) (by decide)

/-- C9: the claim fails.  The messages `/help` and `/stats` start with `/`,
so the guard of the top-level message listener routes them away from `handleMessage`,
and the `onText` command handlers never call `saveLog`: nothing is written
to the interaction log for them. -/
theorem C9_counterexample :
    (dispatch botEmpty 1 (some "u") (some "/help")).log = [] ∧
    (dispatch botEmpty 1 (some "u") (some "/stats")).log = [] := by
  constructor <;> rfl

/-- C9 (amended): every inbound message whose text is present, nonempty and
does not start with `/` has its trimmed text appended to the interaction
log (username defaulting to `Unknown`) before it is classified — the same
append happens on the teach path and the question path alike — while
`/`-prefixed messages such as `/help` and `/stats` bypass `handleMessage`
and are never logged. -/
theorem C9_log_before_classify (st : BotState) (uid : Nat)
    (uname : Option String) (t : String)
    (h1 : t ≠ "") (h2 : jsStartsWith "/" t = false) :
    (dispatch st uid uname (some t)).log =
      st.log ++ [⟨uid, uname.getD "Unknown", jsTrim t⟩] := by
  simp only [dispatch]
  rw [if_neg h1, if_neg (by simp [h2])]
  simp only [handleMessage]
  split <;> rfl

/-- Closed instance of `C9_log_before_classify` on the message `hi there`. -/
theorem C9_log_before_classify_witness :
    (dispatch botEmpty 7 none (some "hi there")).log =
      botEmpty.log ++ [⟨7, (none : Option String).getD "Unknown", jsTrim "hi there"⟩] :=
  C9_log_before_classify botEmpty 7 none "hi there" (by decide) (by decide)

/-- C10: the built-in membership test is a truthy property access, so an
input whose normalized text is an inherited `Object.prototype` property
name is treated as built-in: `getAnswer` returns the inherited non-string
value instead of `notFound` (leaving the memory table untouched), and a
well-formed teach of such a question is rejected as a built-in conflict
although the name is not an own entry of the built-in table. -/
theorem C10_prototype_leak (st : MemStore) (incrOk : Bool) (q m : String)
    (v : JSValue) (h : (jsNormalize q, v) ∈ objectPrototypeProps)
    (hm : jsToLower (questionPart m) = jsNormalize q)
    (ha : answerPart m ≠ "") :
    getAnswer st incrOk q = (some v, st) ∧
    v.isString = false ∧
    DEFAULT_KNOWLEDGE_entries.lookup (jsNormalize q) = none ∧
    teach st m = (TeachResult.builtinConflict, st) := by
  simp only [objectPrototypeProps, List.mem_cons, List.not_mem_nil,
    or_false, Prod.mk.injEq] at h
  rcases h with ⟨h1, rfl⟩ | ⟨h1, rfl⟩ | ⟨h1, rfl⟩ | ⟨h1, rfl⟩ | ⟨h1, rfl⟩ |
    ⟨h1, rfl⟩ | ⟨h1, rfl⟩ | ⟨h1, rfl⟩ | ⟨h1, rfl⟩ | ⟨h1, rfl⟩ |
    ⟨h1, rfl⟩ | ⟨h1, rfl⟩ <;>
  · have hq : questionPart m ≠ "" := fun h0 => by
      rw [h0, h1] at hm
      exact absurd hm (by decide)
    have hb : isBuiltinTruthy (jsToLower (questionPart m)) = true := by
      rw [hm, h1]
      decide
    refine ⟨?_, rfl, ?_, teach_eq_conflict st m hq ha hb⟩
    · simp only [getAnswer]
      rw [h1]
      rfl
    · rw [h1]
      rfl

/-- Closed instance of `C10_prototype_leak` on the input `constructor`. -/
theorem C10_prototype_leak_witness :
    getAnswer emptyMem true "constructor" =
      (some (JSValue.fn "Object"), emptyMem) ∧
    (JSValue.fn "Object").isString = false ∧
    DEFAULT_KNOWLEDGE_entries.lookup (jsNormalize "constructor") = none ∧
    teach emptyMem "!teach constructor | x" =
      (TeachResult.builtinConflict, emptyMem) :=
  C10_prototype_leak emptyMem true "constructor" "!teach constructor | x"
    (JSValue.fn "Object") (by decide) (by decide) (by decide)

end Xm
